import Mathlib

/-!
Verification of the Futuristic Horoscope backend (main.py, schemas.py).

The Python source is shallowly embedded: `datetime.date` becomes the
structure `PyDate` with an `isoformat` rendering, strings stay `String`
(Python `ord` is `Char.toNat`, both the Unicode code point), Mongo-style
documents become association lists of string keys and a `BVal` value sum,
and the two FastAPI handlers become pure functions returning an
`Except HTTPError` result paired with the list of store operations they
would perform.
-/

namespace Horoscope

/-- Calendar date, embedding Python's `datetime.date`. -/
structure PyDate where
  year : Nat
  month : Nat
  day : Nat
deriving DecidableEq, Repr

/-- Decimal rendering of a natural, left-padded with zeros to `width`,
as Python's `%04d` / `%02d` formatting used by `date.isoformat`. -/
def padNat (width n : Nat) : String :=
  let s := toString n
  String.mk (List.replicate (width - s.length) '0') ++ s

/-- Embedding of Python `date.isoformat()`: `YYYY-MM-DD`. -/
def PyDate.isoformat (d : PyDate) : String :=
  padNat 4 d.year ++ "-" ++ padNat 2 d.month ++ "-" ++ padNat 2 d.day

/-- Embedding of `sum(ord(c) for c in s)` from main.py line 76. -/
def charSum (s : String) : Nat :=
  s.data.foldl (fun a c => a + c.toNat) 0

/-- Embedding of Python `str.lower()` restricted to its ASCII action,
which covers every input the handlers compare against the sign set. -/
def pyLower (s : String) : String :=
  String.mk (s.data.map Char.toLower)

/-- Embedding of Python `str.title()` on the single-word lowercase zodiac
identifiers: capitalize the first character. -/
def pyTitle (s : String) : String :=
  match s.data with
  | [] => ""
  | c :: rest => String.mk (c.toUpper :: rest)

/-- The fixed zodiac sign set of main.py lines 28-31. The Python source
holds these in a `set` literal; membership tests are order-independent, and
the one order-dependent use (`compats = list(ZODIAC_SIGNS)`) is fixed here
to the literal order, the spec leaving the iteration order of the sign set
implementation-defined. -/
def ZODIAC_SIGNS : List String :=
  ["aries", "taurus", "gemini", "cancer", "leo", "virgo",
   "libra", "scorpio", "sagittarius", "capricorn", "aquarius", "pisces"]

/-- Mood pool, main.py lines 77-80 (12 entries). -/
def moods : List String :=
  ["radiant", "introspective", "bold", "curious", "grounded", "electric",
   "serene", "magnetic", "fearless", "visionary", "playful", "resolute"]

/-- Color pool, main.py lines 81-84 (8 entries). -/
def colors : List String :=
  ["iridescent violet", "neon cyan", "plasma pink", "midnight indigo",
   "quantum gold", "holographic silver", "aurora teal", "cosmic amber"]

/-- Headline pool, main.py lines 85-88 (6 entries). -/
def headlines : List String :=
  ["Orbit your potential.", "Align with the signal.", "Rewrite today’s script.",
   "Touch the ribbon of fate.", "Navigate the unknown.", "Spark a new circuit."]

/-- Keyword pool, main.py lines 89-92 (15 entries). -/
def keywords_pool : List String :=
  ["sync", "flow", "impulse", "clarity", "bridge", "pulse", "echo", "vector",
   "harmony", "signal", "orbit", "ribbon", "thrive", "link", "spark"]

/-- Compatibility candidate pool, main.py line 93: `list(ZODIAC_SIGNS)`
in the fixed iteration order chosen above. -/
def compats : List String := ZODIAC_SIGNS

/-- The Reading record of schemas.py (`HoroscopeReading`): `lucky_number`
is a Python `int` (embedded as `Int`), `keywords` a list of strings, and
`compatibility` is `Optional[str]`. -/
structure HoroscopeReading where
  sign : String
  scope_date : PyDate
  headline : String
  description : String
  mood : String
  lucky_number : Int
  lucky_color : String
  keywords : List String
  compatibility : Option String
deriving DecidableEq, Repr

/-- The seed of main.py line 76: character-code sum of the lowercase sign
concatenated with the date's ISO representation. -/
def seedOf (sign : String) (d : PyDate) : Nat :=
  charSum (sign ++ d.isoformat)

/-- The pure generation core of `generate_and_store`, main.py lines 76-121:
everything between validation and the store insert. List subscripts are
embedded with `List.getD`; every index is taken modulo the pool length so
the default is never reached. -/
def generate (sign : String) (d : PyDate) : HoroscopeReading :=
  let seed := seedOf sign d
  let mood := moods.getD (seed % moods.length) ""
  let color := colors.getD (seed % colors.length) ""
  let headline := headlines.getD (seed % headlines.length) ""
  let lucky_number : Int := ((seed % 99 + 1 : Nat) : Int)
  let compat0 := compats.getD (seed % compats.length) ""
  let compatibility :=
    if compat0 = sign then compats.getD ((seed + 3) % compats.length) "" else compat0
  let description :=
    "Today, " ++ pyTitle sign ++ " tunes into a " ++ mood ++ " frequency." ++
    " Signals you’ve been waiting on begin to resolve, forming patterns in plain sight." ++
    " Trust your calibration and take one deliberate step forward." ++
    " A chance encounter amplifies your intention—listen for echoes."
  { sign := sign
    scope_date := d
    headline := headline
    description := description
    mood := mood
    lucky_number := lucky_number
    lucky_color := color
    keywords := (List.range 3).map (fun i => keywords_pool.getD ((seed + i) % keywords_pool.length) "")
    compatibility := some compatibility }

/-- The pydantic field constraints of `HoroscopeReading` (schemas.py lines
50-58): the only value constraint is `lucky_number` with `ge=0, le=99`;
no field constrains the length of `keywords` or relates `compatibility`
to `sign`. -/
def schemaAccepts (r : HoroscopeReading) : Prop :=
  0 ≤ r.lucky_number ∧ r.lucky_number ≤ 99

instance (r : HoroscopeReading) : Decidable (schemaAccepts r) := by
  unfold schemaAccepts; infer_instance

/-- Values a stored document field can hold: strings, `date` and
`datetime` objects, Mongo ObjectIds, integers, and string lists. -/
inductive BVal where
  | str (s : String)
  | vdate (d : PyDate)
  | vdatetime (d : PyDate) (hh mi ss : Nat)
  | oid (s : String)
  | int (n : Int)
  | strList (l : List String)
deriving DecidableEq, Repr

/-- Embedding of Python `str(v)` on the document values the read path
probes: `str(date)` is the ISO form, `str(datetime)` is the ISO form, a
space, and the clock time; `str(ObjectId)` is its hex string. -/
def BVal.pyStr : BVal → String
  | .str s => s
  | .vdate d => d.isoformat
  | .vdatetime d hh mi ss =>
      d.isoformat ++ " " ++ padNat 2 hh ++ ":" ++ padNat 2 mi ++ ":" ++ padNat 2 ss
  | .oid s => s
  | .int n => toString n
  | .strList l => toString l

/-- A stored document: a Python dict embedded as an association list in
insertion order; lookups take the first matching key. -/
abbrev Doc := List (String × BVal)

/-- Dict lookup `d.get(k)`: the value at the first matching key (a Python
dict holds each key at most once). -/
def docGet : Doc → String → Option BVal
  | [], _ => none
  | kv :: t, k => if kv.1 = k then some kv.2 else docGet t k

/-- Dict key removal, the effect of `d.pop(k)` on the dict. -/
def docErase : Doc → String → Doc
  | [], _ => []
  | kv :: t, k => if kv.1 = k then docErase t k else kv :: docErase t k

/-- Dict assignment `d[k] = v`: overwrite in place when the key exists,
append otherwise. -/
def docSet : Doc → String → BVal → Doc
  | [], k, v => [(k, v)]
  | kv :: t, k, v => if kv.1 = k then (k, v) :: t else kv :: docSet t k v

/-- The `normalize` closure of get_horoscope, main.py lines 52-58: move
`_id` to a string under `id`, then render a `date`/`datetime`-valued
`scope_date` as the first 10 characters of its string form. -/
def normalize (doc : Doc) : Doc :=
  let d₁ :=
    match docGet doc "_id" with
    | some v => docSet (docErase doc "_id") "id" (BVal.str v.pyStr)
    | none => doc
  match docGet d₁ "scope_date" with
  | some (BVal.vdate dd) =>
      docSet d₁ "scope_date" (BVal.str (((BVal.vdate dd).pyStr).take 10))
  | some (BVal.vdatetime dd hh mi ss) =>
      docSet d₁ "scope_date" (BVal.str (((BVal.vdatetime dd hh mi ss).pyStr).take 10))
  | _ => d₁

/-- Modelled from the spec: `get_documents` lives in database.py, which is
not part of the source tree (only its import and call sites are). Per §4.2,
`query` filters by exact match on the filter keys and returns up to `limit`
matching records in natural store order. The store is the
"horoscopereading" collection as a list of documents. -/
def get_documents (store : List Doc) (filt : Doc) (limit : Nat) : List Doc :=
  (store.filter (fun doc => filt.all (fun kv => docGet doc kv.1 = some kv.2))).take limit

/-- A FastAPI `HTTPException`. -/
structure HTTPError where
  status_code : Nat
  detail : String
deriving DecidableEq, Repr

/-- Store interactions a handler performs, in order. -/
inductive StoreOp where
  | query (collection : String) (filt : Doc) (limit : Nat)
  | insert (collection : String) (r : HoroscopeReading)
deriving DecidableEq, Repr

/-- The query filter built by get_horoscope, main.py lines 45-48: always
the lowercased sign, plus the exact date when one was supplied. -/
def mkFilter (sign : String) (scope_date : Option PyDate) : Doc :=
  match scope_date with
  | some sd => [("sign", BVal.str (pyLower sign)), ("scope_date", BVal.vdate sd)]
  | none => [("sign", BVal.str (pyLower sign))]

/-- The read handler, main.py lines 39-60: validate the sign, query the
store with limit 10, normalize each returned document. The result is
paired with the store operations performed. -/
def get_horoscope (store : List Doc) (sign : String) (scope_date : Option PyDate) :
    Except HTTPError (List Doc) × List StoreOp :=
  if pyLower sign ∈ ZODIAC_SIGNS then
    let filt := mkFilter sign scope_date
    let docs := get_documents store filt 10
    (Except.ok (docs.map normalize), [StoreOp.query "horoscopereading" filt 10])
  else
    (Except.error ⟨400, "Invalid zodiac sign"⟩, [])

/-- The generate handler, main.py lines 63-128: lowercase and validate the
sign, default the date to today, generate, insert. The returned reading is
paired with the store operations performed; the store-assigned id is the
insert's concern and not part of the reading. -/
def generate_and_store (reqSign : String) (reqDate : Option PyDate) (today : PyDate) :
    Except HTTPError HoroscopeReading × List StoreOp :=
  let sign := pyLower reqSign
  if sign ∈ ZODIAC_SIGNS then
    let d := reqDate.getD today
    let reading := generate sign d
    (Except.ok reading, [StoreOp.insert "horoscopereading" reading])
  else
    (Except.error ⟨400, "Invalid zodiac sign"⟩, [])

/-- A reading with `lucky_number = 0` and empty `keywords`: within the
pydantic field constraints, yet outside the spec's data-model invariants. -/
def zeroReading : HoroscopeReading :=
  { sign := "leo"
    scope_date := ⟨2024, 1, 15⟩
    headline := ""
    description := ""
    mood := ""
    lucky_number := 0
    lucky_color := ""
    keywords := []
    compatibility := none }

/-- A concrete stored document, as the store would return it: a Mongo
ObjectId under `_id` and a datetime-valued `scope_date`. -/
def exampleDoc : Doc :=
  [("_id", BVal.oid "652f8a7c9d2e4b0012345678"),
   ("sign", BVal.str "leo"),
   ("scope_date", BVal.vdatetime ⟨2024, 1, 15⟩ 0 0 0),
   ("lucky_number", BVal.int 18)]

/-- A store holding twelve documents that all match the sign filter
`sign = "leo"`: more than the read handler's fixed query limit. -/
def bigStore : List Doc :=
  List.replicate 12 [("sign", BVal.str "leo")]

/-! ## Helper lemmas -/

theorem foldl_add_toNat (l : List Char) (a : Nat) :
    l.foldl (fun acc c => acc + c.toNat) a = a + (l.map Char.toNat).sum := by
  induction l generalizing a with
  | nil => simp
  | cons c t ih => simp [List.foldl_cons, ih, Nat.add_assoc]

theorem docGet_docSet_self (d : Doc) (k : String) (v : BVal) :
    docGet (docSet d k v) k = some v := by
  induction d with
  | nil => simp [docSet, docGet]
  | cons kv t ih =>
    by_cases h : kv.1 = k
    · simp [docSet, docGet, h]
    · simp [docSet, docGet, h, ih]

theorem docGet_docSet_ne (d : Doc) (k k' : String) (v : BVal) (h : k' ≠ k) :
    docGet (docSet d k v) k' = docGet d k' := by
  have hkk : ¬ k = k' := fun he => h he.symm
  induction d with
  | nil => simp [docSet, docGet, hkk]
  | cons kv t ih =>
    by_cases hk : kv.1 = k
    · simp [docSet, docGet, hk, hkk]
    · simp only [docSet, if_neg hk, docGet]
      by_cases hk' : kv.1 = k'
      · simp [hk']
      · simp [hk', ih]

theorem docGet_docErase_self (d : Doc) (k : String) :
    docGet (docErase d k) k = none := by
  induction d with
  | nil => rfl
  | cons kv t ih =>
    by_cases h : kv.1 = k
    · simpa [docErase, h] using ih
    · simp [docErase, docGet, h, ih]

theorem docGet_docErase_ne (d : Doc) (k k' : String) (h : k' ≠ k) :
    docGet (docErase d k) k' = docGet d k' := by
  induction d with
  | nil => rfl
  | cons kv t ih =>
    have hkk : ¬ k = k' := fun he => h he.symm
    by_cases hk : kv.1 = k
    · simp [docErase, docGet, hk, hkk, ih]
    · simp only [docErase, if_neg hk, docGet]
      by_cases hk' : kv.1 = k'
      · simp [hk']
      · simp [hk', ih]

theorem compat_shift_all : ∀ s ∈ ZODIAC_SIGNS, ∀ k : Fin 12,
    (if compats.getD k.val "" = s then compats.getD ((k.val + 3) % 12) ""
     else compats.getD k.val "") ≠ s := by decide

/-! ## Claim theorems -/

/-- C1: for every sign and date, generation is deterministic: two
invocations with the identical (sign, date) pair produce identical Reading
values in every field, the store-assigned identifier being no part of the
generated reading. -/
theorem C1_generate_deterministic (sign : String) (d : PyDate)
    (r₁ r₂ : HoroscopeReading)
    (h₁ : r₁ = generate sign d) (h₂ : r₂ = generate sign d) :
    r₁.sign = r₂.sign ∧ r₁.scope_date = r₂.scope_date ∧
    r₁.headline = r₂.headline ∧ r₁.description = r₂.description ∧
    r₁.mood = r₂.mood ∧ r₁.lucky_number = r₂.lucky_number ∧
    r₁.lucky_color = r₂.lucky_color ∧ r₁.keywords = r₂.keywords ∧
    r₁.compatibility = r₂.compatibility := by
  subst h₁; subst h₂
  exact ⟨rfl, rfl, rfl, rfl, rfl, rfl, rfl, rfl, rfl⟩

/-- Witness for C1 at sign "leo", date 2024-01-15. -/
theorem C1_generate_deterministic_witness :
    generate "leo" ⟨2024, 1, 15⟩ = generate "leo" ⟨2024, 1, 15⟩ ∧
    ((generate "leo" ⟨2024, 1, 15⟩).sign = (generate "leo" ⟨2024, 1, 15⟩).sign ∧
     (generate "leo" ⟨2024, 1, 15⟩).scope_date = (generate "leo" ⟨2024, 1, 15⟩).scope_date ∧
     (generate "leo" ⟨2024, 1, 15⟩).headline = (generate "leo" ⟨2024, 1, 15⟩).headline ∧
     (generate "leo" ⟨2024, 1, 15⟩).description = (generate "leo" ⟨2024, 1, 15⟩).description ∧
     (generate "leo" ⟨2024, 1, 15⟩).mood = (generate "leo" ⟨2024, 1, 15⟩).mood ∧
     (generate "leo" ⟨2024, 1, 15⟩).lucky_number = (generate "leo" ⟨2024, 1, 15⟩).lucky_number ∧
     (generate "leo" ⟨2024, 1, 15⟩).lucky_color = (generate "leo" ⟨2024, 1, 15⟩).lucky_color ∧
     (generate "leo" ⟨2024, 1, 15⟩).keywords = (generate "leo" ⟨2024, 1, 15⟩).keywords ∧
     (generate "leo" ⟨2024, 1, 15⟩).compatibility = (generate "leo" ⟨2024, 1, 15⟩).compatibility) :=
  ⟨rfl, C1_generate_deterministic "leo" ⟨2024, 1, 15⟩ (generate "leo" ⟨2024, 1, 15⟩)
    (generate "leo" ⟨2024, 1, 15⟩) rfl rfl⟩

/-- C2: for every valid sign and date, the compatibility field is the
element at index seed mod 12 of the candidate ordering, replaced by the
element at index (seed + 3) mod 12 when that initial pick equals the sign,
and the result never equals the sign. -/
theorem C2_compatibility_ne_sign (sign : String) (hs : sign ∈ ZODIAC_SIGNS)
    (d : PyDate) :
    (generate sign d).compatibility =
      some (if compats.getD (seedOf sign d % 12) "" = sign
            then compats.getD ((seedOf sign d + 3) % 12) ""
            else compats.getD (seedOf sign d % 12) "") ∧
    (generate sign d).compatibility ≠ some sign := by
  have e : (generate sign d).compatibility =
      some (if compats.getD (seedOf sign d % 12) "" = sign
            then compats.getD ((seedOf sign d + 3) % 12) ""
            else compats.getD (seedOf sign d % 12) "") := rfl
  refine ⟨e, ?_⟩
  rw [e]
  have h12 : seedOf sign d % 12 < 12 := Nat.mod_lt _ (by norm_num)
  have hmod : (seedOf sign d + 3) % 12 = (seedOf sign d % 12 + 3) % 12 := by omega
  have hall := compat_shift_all sign hs ⟨seedOf sign d % 12, h12⟩
  simp only [← hmod] at hall
  simp only [Ne, Option.some.injEq]
  exact hall

/-- Witness for C2 at sign "leo", date 2024-01-15. -/
theorem C2_compatibility_ne_sign_witness :
    "leo" ∈ ZODIAC_SIGNS ∧
    ((generate "leo" ⟨2024, 1, 15⟩).compatibility =
      some (if compats.getD (seedOf "leo" ⟨2024, 1, 15⟩ % 12) "" = "leo"
            then compats.getD ((seedOf "leo" ⟨2024, 1, 15⟩ + 3) % 12) ""
            else compats.getD (seedOf "leo" ⟨2024, 1, 15⟩ % 12) "") ∧
     (generate "leo" ⟨2024, 1, 15⟩).compatibility ≠ some "leo") :=
  ⟨by decide, C2_compatibility_ne_sign "leo" (by decide) ⟨2024, 1, 15⟩⟩

/-- C3: for every sign and date, the seed equals the sum of the character
codes of the lowercase sign concatenated with the date's ISO form; in
particular the seed of ("leo", 2024-01-15) is the character-code sum of
the string "leo2024-01-15". -/
theorem C3_seed_charcode_sum (sign : String) (d : PyDate) :
    seedOf sign d = ((sign ++ d.isoformat).data.map Char.toNat).sum ∧
    seedOf "leo" ⟨2024, 1, 15⟩ = (("leo2024-01-15").data.map Char.toNat).sum := by
  constructor
  · simpa [seedOf, charSum] using foldl_add_toNat (sign ++ d.isoformat).data 0
  · decide

/-- C4: for every sign and date, each single-choice field is selected from
its fixed pool at index seed mod N, N the pool size: mood from the
12-element mood pool, lucky_color from the 8-element color pool, and
headline from the headline pool. -/
theorem C4_single_choice_selection (sign : String) (d : PyDate) :
    (generate sign d).mood = moods.getD (seedOf sign d % moods.length) "" ∧
    moods.length = 12 ∧
    (generate sign d).lucky_color = colors.getD (seedOf sign d % colors.length) "" ∧
    colors.length = 8 ∧
    (generate sign d).headline = headlines.getD (seedOf sign d % headlines.length) "" :=
  ⟨rfl, rfl, rfl, rfl, rfl⟩

/-- C5: for every sign and date, the lucky number equals (seed mod 99) + 1
and lies in [1, 99]. -/
theorem C5_lucky_number (sign : String) (d : PyDate) :
    (generate sign d).lucky_number = ((seedOf sign d % 99 : Nat) : Int) + 1 ∧
    1 ≤ (generate sign d).lucky_number ∧ (generate sign d).lucky_number ≤ 99 := by
  have h : seedOf sign d % 99 < 99 := Nat.mod_lt _ (by norm_num)
  have e : (generate sign d).lucky_number = ((seedOf sign d % 99 + 1 : Nat) : Int) := rfl
  refine ⟨by rw [e]; push_cast; ring, ?_, ?_⟩
  · rw [e]; exact_mod_cast Nat.succ_le_succ (Nat.zero_le _)
  · rw [e]; exact_mod_cast Nat.succ_le_of_lt h

/-- C6: for every sign and date, the keywords list has length exactly 3,
slot i holding the element at index (seed + i) mod 15 of the 15-element
keyword pool; the three slots are filled independently, with no
deduplication. -/
theorem C6_keywords_selection (sign : String) (d : PyDate) :
    (generate sign d).keywords.length = 3 ∧
    keywords_pool.length = 15 ∧
    ∀ i : Fin 3, (generate sign d).keywords.getD i.val "" =
      keywords_pool.getD ((seedOf sign d + i.val) % 15) "" := by
  refine ⟨rfl, rfl, ?_⟩
  intro i
  fin_cases i <;> rfl

/-- C7: for every request whose lowercased sign is outside the fixed
zodiac set, both the read path and the generate path answer a 400
validation error with a descriptive message and perform no store
operation. -/
theorem C7_invalid_sign_rejected (store : List Doc) (sign : String)
    (sd reqDate : Option PyDate) (today : PyDate)
    (h : pyLower sign ∉ ZODIAC_SIGNS) :
    get_horoscope store sign sd = (Except.error ⟨400, "Invalid zodiac sign"⟩, []) ∧
    generate_and_store sign reqDate today =
      (Except.error ⟨400, "Invalid zodiac sign"⟩, []) := by
  constructor
  · simp only [get_horoscope]
    rw [if_neg h]
  · simp only [generate_and_store]
    rw [if_neg h]

/-- Witness for C7 at the invalid sign "unicorn". -/
theorem C7_invalid_sign_rejected_witness :
    pyLower "unicorn" ∉ ZODIAC_SIGNS ∧
    (get_horoscope [] "unicorn" none =
        (Except.error ⟨400, "Invalid zodiac sign"⟩, []) ∧
     generate_and_store "unicorn" none ⟨2024, 1, 15⟩ =
        (Except.error ⟨400, "Invalid zodiac sign"⟩, [])) :=
  ⟨by decide, C7_invalid_sign_rejected [] "unicorn" none none ⟨2024, 1, 15⟩ (by decide)⟩

/-- C8: every document put through the read path's normalization loses the
internal `_id` key, gains its string form under the stable key `id`, and a
date or datetime valued `scope_date` is surfaced as the first 10 characters
of its string form; and on a valid sign the read path returns exactly the
normalized query results. -/
theorem C8_read_normalization (doc : Doc) (v : BVal)
    (hid : docGet doc "_id" = some v) :
    docGet (normalize doc) "_id" = none ∧
    docGet (normalize doc) "id" = some (BVal.str v.pyStr) ∧
    (∀ dd : PyDate, docGet doc "scope_date" = some (BVal.vdate dd) →
      docGet (normalize doc) "scope_date" =
        some (BVal.str (((BVal.vdate dd).pyStr).take 10))) ∧
    (∀ dd hh mi ss, docGet doc "scope_date" = some (BVal.vdatetime dd hh mi ss) →
      docGet (normalize doc) "scope_date" =
        some (BVal.str (((BVal.vdatetime dd hh mi ss).pyStr).take 10))) ∧
    (∀ store sign sd, pyLower sign ∈ ZODIAC_SIGNS →
      (get_horoscope store sign sd).1 =
        Except.ok ((get_documents store (mkFilter sign sd) 10).map normalize)) := by
  have hC : docGet (docSet (docErase doc "_id") "id" (BVal.str v.pyStr)) "scope_date"
      = docGet doc "scope_date" := by
    rw [docGet_docSet_ne _ _ _ _ (by decide), docGet_docErase_ne _ _ _ (by decide)]
  have hA : docGet (docSet (docErase doc "_id") "id" (BVal.str v.pyStr)) "_id" = none := by
    rw [docGet_docSet_ne _ _ _ _ (by decide), docGet_docErase_self]
  have hB : docGet (docSet (docErase doc "_id") "id" (BVal.str v.pyStr)) "id"
      = some (BVal.str v.pyStr) := docGet_docSet_self _ _ _
  refine ⟨?_, ?_, ?_, ?_, ?_⟩
  · simp only [normalize, hid, hC]
    rcases hsd : docGet doc "scope_date" with _ | w
    · exact hA
    · cases w <;>
        first
          | exact hA
          | (rw [docGet_docSet_ne _ _ _ _ (by decide)]; exact hA)
  · simp only [normalize, hid, hC]
    rcases hsd : docGet doc "scope_date" with _ | w
    · exact hB
    · cases w <;>
        first
          | exact hB
          | (rw [docGet_docSet_ne _ _ _ _ (by decide)]; exact hB)
  · intro dd hsd
    simp only [normalize, hid, hC, hsd]
    exact docGet_docSet_self _ _ _
  · intro dd hh mi ss hsd
    simp only [normalize, hid, hC, hsd]
    exact docGet_docSet_self _ _ _
  · intro store sign sd hvalid
    simp only [get_horoscope]
    rw [if_pos hvalid]

/-- Witness for C8 at a concrete stored document carrying an ObjectId and
a datetime-valued scope_date. -/
theorem C8_read_normalization_witness :
    docGet exampleDoc "_id" = some (BVal.oid "652f8a7c9d2e4b0012345678") ∧
    (docGet (normalize exampleDoc) "_id" = none ∧
     docGet (normalize exampleDoc) "id" =
       some (BVal.str ((BVal.oid "652f8a7c9d2e4b0012345678").pyStr)) ∧
     (∀ dd : PyDate, docGet exampleDoc "scope_date" = some (BVal.vdate dd) →
       docGet (normalize exampleDoc) "scope_date" =
         some (BVal.str (((BVal.vdate dd).pyStr).take 10))) ∧
     (∀ dd hh mi ss, docGet exampleDoc "scope_date" = some (BVal.vdatetime dd hh mi ss) →
       docGet (normalize exampleDoc) "scope_date" =
         some (BVal.str (((BVal.vdatetime dd hh mi ss).pyStr).take 10))) ∧
     (∀ store sign sd, pyLower sign ∈ ZODIAC_SIGNS →
       (get_horoscope store sign sd).1 =
         Except.ok ((get_documents store (mkFilter sign sd) 10).map normalize))) :=
  ⟨by decide, C8_read_normalization exampleDoc (BVal.oid "652f8a7c9d2e4b0012345678") (by decide)⟩

/-- C9: the read handler always queries the store with limit 10, so any
successful response holds at most 10 records. -/
theorem C9_read_limit_ten (store : List Doc) (sign : String) (sd : Option PyDate)
    (docs : List Doc) (h : (get_horoscope store sign sd).1 = Except.ok docs) :
    docs.length ≤ 10 ∧
    (get_horoscope store sign sd).2 =
      [StoreOp.query "horoscopereading" (mkFilter sign sd) 10] := by
  by_cases hv : pyLower sign ∈ ZODIAC_SIGNS
  · simp only [get_horoscope] at h ⊢
    rw [if_pos hv] at h ⊢
    simp only [Except.ok.injEq] at h
    refine ⟨?_, rfl⟩
    rw [← h, List.length_map]
    unfold get_documents
    rw [List.length_take]
    exact min_le_left _ _
  · simp only [get_horoscope] at h
    rw [if_neg hv] at h
    simp at h

/-- Witness for C9: a store of 12 matching documents, of which the read
path returns exactly 10. -/
theorem C9_read_limit_ten_witness :
    (get_horoscope bigStore "leo" none).1 =
      Except.ok (List.replicate 10 [("sign", BVal.str "leo")]) ∧
    ((List.replicate 10 ([("sign", BVal.str "leo")] : Doc)).length ≤ 10 ∧
     (get_horoscope bigStore "leo" none).2 =
       [StoreOp.query "horoscopereading" (mkFilter "leo" none) 10]) :=
  ⟨by rfl, C9_read_limit_ten bigStore "leo" none
    (List.replicate 10 [("sign", BVal.str "leo")]) (by rfl)⟩

/-- C10: the pydantic schema is strictly weaker than the spec's data-model
invariants: it accepts exactly lucky_number in [0, 99] (so 0 passes) and
places no constraint on the keywords length (so the empty default passes);
the bounds lucky_number ≥ 1 and exactly 3 keywords hold only of generated
readings. -/
theorem C10_schema_weaker :
    (∀ r : HoroscopeReading,
      schemaAccepts r ↔ 0 ≤ r.lucky_number ∧ r.lucky_number ≤ 99) ∧
    schemaAccepts zeroReading ∧
    zeroReading.lucky_number = 0 ∧
    zeroReading.keywords = [] ∧
    (∀ sign : String, ∀ d : PyDate,
      1 ≤ (generate sign d).lucky_number ∧ (generate sign d).keywords.length = 3) := by
  refine ⟨fun r => Iff.rfl, by decide, rfl, rfl, fun sign d => ⟨?_, rfl⟩⟩
  have e : (generate sign d).lucky_number = ((seedOf sign d % 99 + 1 : Nat) : Int) := rfl
  rw [e]
  exact_mod_cast Nat.succ_le_succ (Nat.zero_le _)

end Horoscope
